import Mathlib

/-!
Shallow embedding of the HyperX Cloud Flight S battery monitor
(`headset_interface.py`).

The embedding models the monitoring core as a sequential state machine:

* `HState` collects the mutable fields of `HyperXCloudFlightS` together with
  the Flask app's `battery_status` attribute (`appBatteryStatus`, the value
  served by the `/battery_status` endpoint).
* `bootstrap` is one scheduler tick (`HyperXCloudFlightS.bootstrap`); the
  environment `Env` supplies the wall clock, the result of `hid.enumerate`,
  the success of `open_path` per candidate, and the outcome of the wake
  `write`.
* `runIteration` is one iteration of the `while True` loop in
  `HyperXCloudFlightS.run`, parameterised by the outcome of the device read.
* `process_data` is `HyperXCloudFlightS.process_data`; Python list indexing
  is modelled by `l[i]?`, and a result of `none` models an uncaught
  `IndexError` escaping the method.

Timestamps are modelled as natural-number seconds.
-/

namespace HyperX

/-- Vendor id of the headset (`VENDOR_ID = 2385`). -/
def VENDOR_ID : Nat := 2385

/-- Product id of the headset (`PRODUCT_ID = 5866`). -/
def PRODUCT_ID : Nat := 5866

/-- HID usage page filter (`USAGE_PAGE = 65299`). -/
def USAGE_PAGE : Nat := 65299

/-- `CommandMeaning.position_info`: offset of the frame's type marker. -/
def position_info : Nat := 3

/-- `CommandMeaning.position_battery`: offset of the battery percentage. -/
def position_battery : Nat := 7

/-- `CommandMeaning.type_battery_status`: type marker of a battery frame. -/
def type_battery_status : Nat := 2

/-- One entry of the `hid.enumerate` candidate list. The opaque device path
is modelled as a natural number. -/
structure DeviceInfo where
  usage_page : Nat
  usage : Nat
  path : Nat
deriving DecidableEq

/-- The mutable state of `HyperXCloudFlightS`, plus `app.battery_status`.

`wokeOk` is an instrumentation field with no Python counterpart: it records
whether the most recent wake `write` on the currently held handle succeeded.
It is set exactly when the wake write returns successfully and reset to
`false` whenever the handle is dropped or replaced, or a write fails; it lets
the readiness invariant (`ReadinessSignal` set iff handle live and woken) be
stated over the machine. -/
structure HState where
  updateDelay : Nat
  invalidateAfter : Nat
  devices : List DeviceInfo
  bootstrapDevice : Option Nat
  batteryStatus : Option Nat
  appBatteryStatus : Option Nat
  lastBatteryUpdateAt : Option Nat
  deviceReady : Bool
  wokeOk : Bool
deriving DecidableEq

/-- Outcome of the wake `write` call: success, `OSError`, or any other
exception (the unclassified-failure case). -/
inductive WriteOutcome where
  | ok
  | osError
  | otherError
deriving DecidableEq

/-- Environment of one scheduler tick: current time, the list a fresh
`hid.enumerate` would return, which candidate paths `open_path` would accept,
and how the wake `write` turns out. -/
structure Env where
  now : Nat
  enumerated : List DeviceInfo
  openOk : Nat → Bool
  writeOutcome : WriteOutcome

/-- The staleness test in `bootstrap`:
`last_battery_update_at is not None and time.time() - last > invalidate_after`. -/
def isStale (s : HState) (now : Nat) : Bool :=
  match s.lastBatteryUpdateAt with
  | some t => decide (now - t > s.invalidateAfter)
  | none => false

/-- The candidate loop in `bootstrap`: take the first device matching
`usage_page == USAGE_PAGE and usage == 1` whose `open_path` succeeds;
candidates whose open raises `OSError` are skipped (`continue`). -/
def findDevice (openOk : Nat → Bool) : List DeviceInfo → Option Nat
  | [] => none
  | d :: rest =>
    if d.usage_page = USAGE_PAGE ∧ d.usage = 1 then
      if openOk d.path then some d.path else findDevice openOk rest
    else
      findDevice openOk rest

/-- Result of one scheduler tick: the successor state, whether the wake write
was attempted, whether `hid.enumerate` was re-run, whether the tick re-armed
the timer (the `finally` block), and how many `error` events were emitted. -/
structure TickResult where
  state : HState
  wroteWake : Bool
  didEnumerate : Bool
  rearmed : Bool
  errorEvents : Nat
deriving DecidableEq

/-- First phase of `bootstrap` (lines 105-109): if the cached reading is
stale, clear `app.battery_status`, clear the readiness event, and drop the
handle. -/
def invalidateIfStale (s : HState) (now : Nat) : HState :=
  if isStale s now then
    { s with appBatteryStatus := none, deviceReady := false,
             bootstrapDevice := none, wokeOk := false }
  else s

/-- Second phase of `bootstrap` (lines 111-123): when the handle is `None`,
re-enumerate only if the cached candidate list is empty, then try to open the
first matching candidate. Returns the new state and whether `hid.enumerate`
was called. -/
def rediscover (s : HState) (env : Env) : HState × Bool :=
  if s.bootstrapDevice.isNone then
    let didEnum := s.devices.isEmpty
    let devs := if didEnum then env.enumerated else s.devices
    ({ s with devices := devs, bootstrapDevice := findDevice env.openOk devs,
              wokeOk := false }, didEnum)
  else (s, false)

/-- Third phase of `bootstrap` (lines 125-143): return early if no handle was
found or readiness is already set; otherwise send the wake command. Write
success sets readiness; `OSError` is only logged; any other exception emits an
`error` event. Every path re-arms the timer (the `finally` block), recorded
in `rearmed`. -/
def wakePhase (s : HState) (didEnum : Bool) (w : WriteOutcome) : TickResult :=
  if s.bootstrapDevice.isNone then
    ⟨s, false, didEnum, true, 0⟩
  else if s.deviceReady then
    ⟨s, false, didEnum, true, 0⟩
  else
    match w with
    | .ok => ⟨{ s with deviceReady := true, wokeOk := true }, true, didEnum, true, 0⟩
    | .osError => ⟨s, true, didEnum, true, 0⟩
    | .otherError => ⟨s, true, didEnum, true, 1⟩

/-- One scheduler tick: `HyperXCloudFlightS.bootstrap`. -/
def bootstrap (s : HState) (env : Env) : TickResult :=
  let s1 := invalidateIfStale s env.now
  let r := rediscover s1 env
  wakePhase r.1 r.2 env.writeOutcome

/-- `HyperXCloudFlightS.process_data`. The second component of a successful
result is the emitted `battery_status` change notification (`none` when the
frame was ignored or deduplicated). A `none` result models an `IndexError`
raised by Python list indexing on a truncated frame. -/
def process_data (s : HState) (now : Nat) (data : List Nat) :
    Option (HState × Option Nat) :=
  match data[position_info]? with
  | none => none
  | some ti =>
    if ti = type_battery_status then
      match data[position_battery]? with
      | none => none
      | some b =>
        let previous := s.batteryStatus
        let s1 := { s with batteryStatus := some b }
        if previous = some b then
          some ({ s1 with lastBatteryUpdateAt := some now }, none)
        else
          some ({ s1 with appBatteryStatus := some b,
                          lastBatteryUpdateAt := some now }, some b)
    else
      some (s, none)

/-- Outcome of a device read in the run loop. -/
inductive ReadResult where
  | ioError
  | data (d : List Nat)
deriving DecidableEq

/-- Control transfer after one run-loop iteration: re-block on the readiness
event before reading again, loop straight to the next read, or die on an
uncaught `IndexError` from `process_data`. -/
inductive RunOutcome where
  | waitThenRetry
  | loopAgain
  | indexFault
deriving DecidableEq

/-- One iteration of the `while True` loop in `HyperXCloudFlightS.run`,
starting at the `read` call. On `OSError` the handle and readiness event are
cleared and the loop continues (the next iteration re-bootstraps and blocks
on readiness); an empty read (timeout) loops again with no side effect; a
non-empty frame goes to `process_data`. Returns the successor state, the
emitted change notification, and the control transfer. -/
def runIteration (s : HState) (now : Nat) (r : ReadResult) :
    HState × Option Nat × RunOutcome :=
  match r with
  | .ioError =>
      ({ s with bootstrapDevice := none, deviceReady := false, wokeOk := false },
       none, .waitThenRetry)
  | .data d =>
      if d.isEmpty then (s, none, .loopAgain)
      else
        match process_data s now d with
        | none => (s, none, .indexFault)
        | some (s1, ev) => (s1, ev, .loopAgain)

/-- The check at the top of the run loop (lines 149-151): when the handle is
`None`, the loop calls `bootstrap` and blocks on the readiness event before
the next read. -/
def loopEntryBlocks (s : HState) : Bool := s.bootstrapDevice.isNone

/-- Response of the `/battery_status` Flask endpoint. -/
inductive BatteryResponse where
  | unknown
  | value (n : Nat)
deriving DecidableEq

/-- The `/battery_status` endpoint (lines 40-46): serve `"unknown"` when
`app.battery_status` is unset, otherwise the stored percentage. -/
def battery_status (st : Option Nat) : BatteryResponse :=
  match st with
  | none => .unknown
  | some v => .value v

/-- The state built by `HyperXCloudFlightS.__init__` before the initial
`bootstrap` call: the constructor runs one `hid.enumerate` (the `devs`
argument) and leaves every other field unset. -/
def initState (updateDelay invalidateAfter : Nat) (devs : List DeviceInfo) :
    HState :=
  { updateDelay := updateDelay, invalidateAfter := invalidateAfter,
    devices := devs, bootstrapDevice := none, batteryStatus := none,
    appBatteryStatus := none, lastBatteryUpdateAt := none,
    deviceReady := false, wokeOk := false }

/-- States reachable by the program: the constructor state, closed under
scheduler ticks and run-loop iterations. -/
inductive Reachable : HState → Prop
  | init (ud ia : Nat) (devs : List DeviceInfo) : Reachable (initState ud ia devs)
  | boot (s : HState) (env : Env) : Reachable s → Reachable (bootstrap s env).state
  | step (s : HState) (now : Nat) (r : ReadResult) :
      Reachable s → Reachable (runIteration s now r).1

/-- The readiness invariant: the readiness event is set exactly when a handle
is held and the wake write on it succeeded. -/
def Inv (s : HState) : Prop :=
  s.deviceReady = (s.bootstrapDevice.isSome && s.wokeOk)

lemma inv_invalidateIfStale (s : HState) (now : Nat) (h : Inv s) :
    Inv (invalidateIfStale s now) := by
  unfold invalidateIfStale
  split
  · simp [Inv]
  · exact h

lemma inv_rediscover (s : HState) (env : Env) (h : Inv s) :
    Inv (rediscover s env).1 := by
  unfold rediscover
  split
  · rename_i hnone
    have hready : s.deviceReady = false := by
      rw [h, Option.isNone_iff_eq_none.mp hnone]
      rfl
    simp [Inv, hready]
  · exact h

lemma inv_wakePhase (s : HState) (de : Bool) (w : WriteOutcome) (h : Inv s) :
    Inv (wakePhase s de w).state := by
  unfold wakePhase
  split
  · exact h
  · split
    · exact h
    · rename_i hnone _
      cases w
      · simp only [Inv]
        simp only [Option.isNone_iff_eq_none] at hnone
        cases hd : s.bootstrapDevice with
        | none => exact absurd hd hnone
        | some v => rfl
      · exact h
      · exact h

lemma inv_bootstrap (s : HState) (env : Env) (h : Inv s) :
    Inv (bootstrap s env).state :=
  inv_wakePhase _ _ _ (inv_rediscover _ env (inv_invalidateIfStale s env.now h))

lemma process_data_preserves_control (s : HState) (now : Nat) (d : List Nat)
    (s1 : HState) (ev : Option Nat) (h : process_data s now d = some (s1, ev)) :
    s1.deviceReady = s.deviceReady ∧ s1.bootstrapDevice = s.bootstrapDevice ∧
      s1.wokeOk = s.wokeOk := by
  unfold process_data at h
  split at h
  · exact absurd h (by simp)
  · split at h
    · dsimp only at h
      split at h
      · exact absurd h (by simp)
      · split at h
        · simp only [Option.some.injEq, Prod.mk.injEq] at h
          obtain ⟨h1, _⟩ := h
          subst h1
          exact ⟨rfl, rfl, rfl⟩
        · simp only [Option.some.injEq, Prod.mk.injEq] at h
          obtain ⟨h1, _⟩ := h
          subst h1
          exact ⟨rfl, rfl, rfl⟩
    · simp only [Option.some.injEq, Prod.mk.injEq] at h
      obtain ⟨h1, _⟩ := h
      subst h1
      exact ⟨rfl, rfl, rfl⟩

lemma inv_runIteration (s : HState) (now : Nat) (r : ReadResult) (h : Inv s) :
    Inv (runIteration s now r).1 := by
  cases r with
  | ioError => simp [runIteration, Inv]
  | data d =>
    simp only [runIteration]
    split
    · exact h
    · cases hp : process_data s now d with
      | none => simpa [hp] using h
      | some p =>
        obtain ⟨s1, ev⟩ := p
        obtain ⟨h1, h2, h3⟩ := process_data_preserves_control s now d s1 ev hp
        simp only [hp]
        simpa only [Inv, h1, h2, h3] using h

lemma inv_of_reachable (s : HState) (h : Reachable s) : Inv s := by
  induction h with
  | init ud ia devs => rfl
  | boot s env _ ih => exact inv_bootstrap s env ih
  | step s now r _ ih => exact inv_runIteration s now r ih

lemma invalidateIfStale_of_not_stale (s : HState) (now : Nat)
    (h : isStale s now = false) : invalidateIfStale s now = s := by
  simp [invalidateIfStale, h]

lemma invalidateIfStale_devices (s : HState) (now : Nat) :
    (invalidateIfStale s now).devices = s.devices := by
  unfold invalidateIfStale
  split <;> rfl

lemma rediscover_of_some (s : HState) (env : Env)
    (h : s.bootstrapDevice.isSome = true) : rediscover s env = (s, false) := by
  cases hd : s.bootstrapDevice with
  | none => rw [hd] at h; exact absurd h (by simp)
  | some v => simp [rediscover, hd]

lemma rediscover_didEnum_eq (s : HState) (env : Env) :
    (rediscover s env).2 = (s.bootstrapDevice.isNone && s.devices.isEmpty) := by
  unfold rediscover
  split
  · rename_i hnone
    rw [hnone, Bool.true_and]
  · rename_i hnone
    rw [Bool.not_eq_true] at hnone
    rw [hnone, Bool.false_and]

lemma isEmpty_true_eq_nil {l : List DeviceInfo} (h : l.isEmpty = true) :
    l = [] := by
  cases l with
  | nil => rfl
  | cons a t => exact Bool.noConfusion h

lemma rediscover_devices_of_nonempty (s : HState) (env : Env)
    (h : s.devices ≠ []) : (rediscover s env).1.devices = s.devices := by
  have hie : s.devices.isEmpty = false := by
    cases hd : s.devices with
    | nil => exact absurd hd h
    | cons a t => rfl
  unfold rediscover
  split
  · dsimp only
    rw [hie]
    rfl
  · rfl

lemma wakePhase_of_ready (s : HState) (de : Bool) (w : WriteOutcome)
    (hsome : s.bootstrapDevice.isSome = true) (hready : s.deviceReady = true) :
    wakePhase s de w = ⟨s, false, de, true, 0⟩ := by
  cases hd : s.bootstrapDevice with
  | none => rw [hd] at hsome; exact absurd hsome (by simp)
  | some v => simp [wakePhase, hd, hready]

lemma wakePhase_osError (s : HState) (de : Bool)
    (hsome : s.bootstrapDevice.isSome = true) (hready : s.deviceReady = false) :
    wakePhase s de WriteOutcome.osError = ⟨s, true, de, true, 0⟩ := by
  cases hd : s.bootstrapDevice with
  | none => rw [hd] at hsome; exact absurd hsome (by simp)
  | some v => simp [wakePhase, hd, hready]

lemma wakePhase_rearmed (s : HState) (de : Bool) (w : WriteOutcome) :
    (wakePhase s de w).rearmed = true := by
  unfold wakePhase
  split
  · rfl
  · split
    · rfl
    · cases w <;> rfl

lemma wakePhase_didEnumerate (s : HState) (de : Bool) (w : WriteOutcome) :
    (wakePhase s de w).didEnumerate = de := by
  unfold wakePhase
  split
  · rfl
  · split
    · rfl
    · cases w <;> rfl

lemma wakePhase_devices (s : HState) (de : Bool) (w : WriteOutcome) :
    (wakePhase s de w).state.devices = s.devices := by
  unfold wakePhase
  split
  · rfl
  · split
    · rfl
    · cases w <;> rfl

lemma wakePhase_error_event (s : HState) (de : Bool)
    (hw : (wakePhase s de WriteOutcome.otherError).wroteWake = true) :
    (wakePhase s de WriteOutcome.otherError).errorEvents = 1 := by
  by_cases h1 : s.bootstrapDevice.isNone = true
  · unfold wakePhase at hw
    rw [if_pos h1] at hw
    exact absurd hw (by simp)
  · by_cases h2 : s.deviceReady = true
    · unfold wakePhase at hw
      rw [if_neg h1, if_pos h2] at hw
      exact absurd hw (by simp)
    · unfold wakePhase
      rw [if_neg h1, if_neg h2]

/-- Candidate descriptor matching the telemetry interface filter
(`usage_page == 65299 and usage == 1`), with device path `7`. -/
def okDev : DeviceInfo := ⟨65299, 1, 7⟩

/-- Environment for a tick in which discovery and the wake write succeed. -/
def bootEnvOk : Env := ⟨0, [], fun _ => true, .ok⟩

/-- The state after the constructor's tick on a present, healthy device:
handle open, readiness set. -/
def readyState : HState := (bootstrap (initState 300 1800 [okDev]) bootEnvOk).state

/-- A 20-byte battery frame carrying percentage 45. -/
def frame45 : List Nat := [0, 0, 0, 2, 0, 0, 0, 45, 0, 0, 0, 0, 0, 0, 0, 0, 0, 0, 0, 0]

/-- C1: for every 20-byte frame, `process_data` completes, and it performs a
battery update (setting the cached percentage to byte 7 and refreshing the
timestamp) exactly when byte 3 equals the battery-status marker; a frame with
any other byte at offset 3 leaves the state unchanged and emits no
notification. -/
theorem processData_battery_iff (s : HState) (now : Nat) (d : List Nat)
    (h : d.length = 20) :
    ∃ s1 ev p, process_data s now d = some (s1, ev) ∧
      d[position_battery]? = some p ∧
      (d[position_info]? = some type_battery_status →
        s1.batteryStatus = some p ∧ s1.lastBatteryUpdateAt = some now) ∧
      (d[position_info]? ≠ some type_battery_status → s1 = s ∧ ev = none) := by
  obtain ⟨ti, h3⟩ : ∃ ti, d[position_info]? = some ti :=
    ⟨_, List.getElem?_eq_getElem (by simp only [position_info]; omega)⟩
  obtain ⟨b, h7⟩ : ∃ b, d[position_battery]? = some b :=
    ⟨_, List.getElem?_eq_getElem (by simp only [position_battery]; omega)⟩
  unfold process_data
  rw [h3, h7]
  dsimp only
  by_cases hti : ti = type_battery_status
  · rw [if_pos hti]
    by_cases hprev : s.batteryStatus = some b
    · rw [if_pos hprev]
      exact ⟨_, none, b, rfl, rfl, fun _ => ⟨rfl, rfl⟩,
        fun hne => absurd (by rw [hti]) hne⟩
    · rw [if_neg hprev]
      exact ⟨_, some b, b, rfl, rfl, fun _ => ⟨rfl, rfl⟩,
        fun hne => absurd (by rw [hti]) hne⟩
  · rw [if_neg hti]
    refine ⟨s, none, b, rfl, rfl, fun heq => ?_, fun _ => ⟨rfl, rfl⟩⟩
    exact absurd (Option.some.inj heq) hti

/-- Witness for C1 at the concrete frame `frame45`. -/
theorem processData_battery_iff_witness :
    ∃ s1 ev p, process_data (initState 300 1800 []) 5 frame45 = some (s1, ev) ∧
      frame45[position_battery]? = some p ∧
      (frame45[position_info]? = some type_battery_status →
        s1.batteryStatus = some p ∧ s1.lastBatteryUpdateAt = some 5) ∧
      (frame45[position_info]? ≠ some type_battery_status →
        s1 = initState 300 1800 [] ∧ ev = none) :=
  processData_battery_iff (initState 300 1800 []) 5 frame45 (by decide)

/-- C2: on a battery frame carrying the percentage already cached, the update
refreshes only the timestamp and emits no notification; on a differing
percentage it replaces the cache, republishes to the endpoint, refreshes the
timestamp, and emits exactly one notification carrying the new value. -/
theorem processData_update_dedup (s : HState) (now : Nat) (d : List Nat)
    (p : Nat) (ht : d[position_info]? = some type_battery_status)
    (hb : d[position_battery]? = some p) :
    (s.batteryStatus = some p →
      process_data s now d =
        some ({ s with lastBatteryUpdateAt := some now }, none)) ∧
    (s.batteryStatus ≠ some p →
      process_data s now d =
        some ({ s with batteryStatus := some p, appBatteryStatus := some p,
                       lastBatteryUpdateAt := some now }, some p)) := by
  unfold process_data
  rw [ht, hb]
  dsimp only
  rw [if_pos rfl]
  constructor
  · intro hprev
    rw [if_pos hprev, ← hprev]
  · intro hprev
    rw [if_neg hprev]

/-- The constructor state with percentage 45 already cached. -/
def cached45 : HState :=
  { initState 300 1800 [okDev] with batteryStatus := some 45 }

/-- Witness for C2: the dedup case on a state caching 45, and the differing
case on the constructor state. -/
theorem processData_update_dedup_witness :
    process_data cached45 9 frame45 =
      some ({ cached45 with lastBatteryUpdateAt := some 9 }, none) ∧
    process_data (initState 300 1800 []) 9 frame45 =
      some ({ initState 300 1800 [] with
              batteryStatus := some 45
              appBatteryStatus := some 45
              lastBatteryUpdateAt := some 9 },
        some 45) :=
  ⟨(processData_update_dedup cached45 9 frame45 45
      (by decide) (by decide)).1 rfl,
   (processData_update_dedup (initState 300 1800 []) 9 frame45 45
      (by decide) (by decide)).2 (by decide)⟩

/-- C5 counterexample: the truncated 3-byte frame `[1, 2, 3]` does not
complete silently — `process_data` hits out-of-range indexing (a Python
`IndexError`), modelled by the `none` result, refuting that truncated frames
are ignored without error. -/
theorem truncatedFrame_faults :
    process_data (initState 300 1800 []) 0 [1, 2, 3] = none := by decide

/-- C5 amended: a frame of length at least 4 whose type marker differs from
the battery marker is silently ignored with no state change and no
notification; a frame shorter than 4 bytes, or a battery-typed frame shorter
than 8 bytes, raises an index error instead of being ignored. -/
theorem processData_malformed (s : HState) (now : Nat) (d : List Nat) :
    (4 ≤ d.length → d[position_info]? ≠ some type_battery_status →
      process_data s now d = some (s, none)) ∧
    (d.length < 4 → process_data s now d = none) ∧
    (d[position_info]? = some type_battery_status → d.length < 8 →
      process_data s now d = none) := by
  refine ⟨?_, ?_, ?_⟩
  · intro hlen hne
    obtain ⟨ti, h3⟩ : ∃ ti, d[position_info]? = some ti :=
      ⟨_, List.getElem?_eq_getElem (by simp only [position_info]; omega)⟩
    unfold process_data
    rw [h3]
    dsimp only
    rw [if_neg (fun hh => hne (by rw [h3, hh]))]
  · intro hlen
    unfold process_data
    rw [List.getElem?_eq_none (by simp only [position_info]; omega)]
  · intro h3 hlen
    unfold process_data
    rw [h3]
    dsimp only
    rw [if_pos rfl, List.getElem?_eq_none (by simp only [position_battery]; omega)]

/-- Witness for the amended C5: an 8-byte volume-style frame (marker 5) is
ignored, via the first clause of `processData_malformed`. -/
theorem processData_malformed_witness :
    process_data (initState 300 1800 []) 0 [0, 0, 0, 5, 0, 0, 0, 9] =
      some (initState 300 1800 [], none) :=
  (processData_malformed (initState 300 1800 []) 0 [0, 0, 0, 5, 0, 0, 0, 9]).1
    (by decide) (by decide)

/-- State of a tick whose wake write will fail: handle open, readiness not
yet set. -/
def writeFailState : HState :=
  { updateDelay := 300, invalidateAfter := 1800, devices := [okDev],
    bootstrapDevice := some 7, batteryStatus := none, appBatteryStatus := none,
    lastBatteryUpdateAt := none, deviceReady := false, wokeOk := false }

/-- Environment in which the wake write raises `OSError`. -/
def writeFailEnv : Env := ⟨0, [], fun _ => true, .osError⟩

/-- C4 counterexample: when the wake write fails with an I/O error, the tick
does not drop the handle — it is still the same open handle afterwards — so
the next tick does not return to discovery. -/
theorem writeFail_keepsHandle :
    (bootstrap writeFailState writeFailEnv).wroteWake = true ∧
    (bootstrap writeFailState writeFailEnv).state.bootstrapDevice = some 7 := by
  decide

/-- C4 amended: when the wake write fails with an I/O error during a tick
(handle open, readiness clear, reading not stale), the tick leaves the whole
state unchanged — the handle is kept and readiness stays clear — so the next
tick retries the wake on the same handle instead of re-running discovery. -/
theorem writeFail_leavesStateUnchanged (s : HState) (env : Env)
    (hstale : isStale s env.now = false)
    (hdev : s.bootstrapDevice.isSome = true)
    (hready : s.deviceReady = false)
    (hw : env.writeOutcome = WriteOutcome.osError) :
    bootstrap s env = ⟨s, true, false, true, 0⟩ := by
  simp only [bootstrap]
  rw [invalidateIfStale_of_not_stale s env.now hstale,
    rediscover_of_some s env hdev, hw]
  exact wakePhase_osError s false hdev hready

/-- Witness for the amended C4 at the concrete failing-write tick. -/
theorem writeFail_leavesStateUnchanged_witness :
    bootstrap writeFailState writeFailEnv = ⟨writeFailState, true, false, true, 0⟩ :=
  writeFail_leavesStateUnchanged writeFailState writeFailEnv (by decide)
    (by decide) rfl rfl

/-- Ready steady state caching percentage 45 since time 0, about to go
stale. -/
def staleStart : HState :=
  { updateDelay := 300, invalidateAfter := 1800, devices := [okDev],
    bootstrapDevice := some 7, batteryStatus := some 45,
    appBatteryStatus := some 45, lastBatteryUpdateAt := some 0,
    deviceReady := true, wokeOk := true }

/-- Tick environment at time 1801 (past the 1800s threshold) in which
rediscovery and the wake write succeed. -/
def staleEnv : Env := ⟨1801, [], fun _ => true, .ok⟩

/-- The state after the invalidating tick. -/
def afterInvalidate : HState := (bootstrap staleStart staleEnv).state

/-- C3, failing trace: the stale tick clears the endpoint value and the
device is re-acquired in the same tick, but the internal cache still holds
45; the next battery frame carrying the same percentage 45 takes the
deduplication branch, so the endpoint keeps answering unknown even though a
fresh battery reading arrived. -/
theorem staleThenSameValue_staysUnknown :
    isStale staleStart staleEnv.now = true ∧
    battery_status afterInvalidate.appBatteryStatus = BatteryResponse.unknown ∧
    afterInvalidate.deviceReady = true ∧
    afterInvalidate.batteryStatus = some 45 ∧
    process_data afterInvalidate 1802 frame45 =
      some ({ afterInvalidate with lastBatteryUpdateAt := some 1802 }, none) ∧
    battery_status
        ({ afterInvalidate with lastBatteryUpdateAt := some 1802 }).appBatteryStatus =
      BatteryResponse.unknown := by decide

/-- C6: in every reachable state — after the constructor, any number of
scheduler ticks, and any number of run-loop iterations — the readiness event
is set exactly when a device handle is held and the wake write on it
succeeded. -/
theorem readiness_iff_handle_woken (s : HState) (h : Reachable s) :
    s.deviceReady = (s.bootstrapDevice.isSome && s.wokeOk) :=
  inv_of_reachable s h

/-- Witness for C6 at the state reached by the constructor's tick on a
healthy device. -/
theorem readiness_iff_handle_woken_witness :
    readyState.deviceReady = (readyState.bootstrapDevice.isSome && readyState.wokeOk) :=
  readiness_iff_handle_woken readyState
    (Reachable.boot (initState 300 1800 [okDev]) bootEnvOk
      (Reachable.init 300 1800 [okDev]))

/-- C7: every scheduler tick re-arms the timer (the `finally` block) whatever
its outcome, and when the wake write was attempted and raised an unclassified
exception the tick completes having emitted exactly one `error` event. -/
theorem tick_always_rearms (s : HState) (env : Env) :
    (bootstrap s env).rearmed = true ∧
    ((bootstrap s env).wroteWake = true →
      env.writeOutcome = WriteOutcome.otherError →
      (bootstrap s env).errorEvents = 1) := by
  constructor
  · simp only [bootstrap]
    exact wakePhase_rearmed _ _ _
  · intro hw hother
    simp only [bootstrap] at hw ⊢
    rw [hother] at hw ⊢
    exact wakePhase_error_event _ _ hw

/-- Environment in which the wake write raises an unclassified exception. -/
def errEnv : Env := ⟨0, [], fun _ => true, .otherError⟩

/-- Witness for C7: a tick with a failing (unclassified) wake write re-arms
and emits one error event. -/
theorem tick_always_rearms_witness :
    (bootstrap writeFailState errEnv).rearmed = true ∧
    (bootstrap writeFailState errEnv).errorEvents = 1 :=
  ⟨(tick_always_rearms writeFailState errEnv).1,
   (tick_always_rearms writeFailState errEnv).2 (by decide) rfl⟩

/-- C8: a scheduler tick taken in a reachable state in which readiness is
already set and the cached reading is not stale is a no-op: no wake write, no
enumeration, state (handle, readiness, caches, timestamp) unchanged, timer
re-armed. -/
theorem readyNotStale_noop (s : HState) (env : Env) (hr : Reachable s)
    (hready : s.deviceReady = true) (hstale : isStale s env.now = false) :
    bootstrap s env = ⟨s, false, false, true, 0⟩ := by
  have hinv := inv_of_reachable s hr
  have hsome : s.bootstrapDevice.isSome = true := by
    rw [Inv, hready] at hinv
    cases hb : s.bootstrapDevice.isSome
    · rw [hb, Bool.false_and] at hinv
      exact absurd hinv.symm (by simp)
    · rfl
  simp only [bootstrap]
  rw [invalidateIfStale_of_not_stale s env.now hstale,
    rediscover_of_some s env hsome]
  exact wakePhase_of_ready s false env.writeOutcome hsome hready

/-- Witness for C8 at the ready state reached by the constructor's tick. -/
theorem readyNotStale_noop_witness :
    bootstrap readyState bootEnvOk = ⟨readyState, false, false, true, 0⟩ :=
  readyNotStale_noop readyState bootEnvOk
    (Reachable.boot (initState 300 1800 [okDev]) bootEnvOk
      (Reachable.init 300 1800 [okDev]))
    (by decide) (by decide)

/-- C9: a run-loop read failing with an I/O error clears both the handle and
the readiness event and transfers to the wait-on-readiness path (the loop
keeps running, it does not terminate); a timed-out empty read loops again
with no state change and no notification. -/
theorem readLoop_ioError_recovery (s : HState) (now : Nat) :
    runIteration s now ReadResult.ioError =
      ({ s with bootstrapDevice := none, deviceReady := false, wokeOk := false },
        none, RunOutcome.waitThenRetry) ∧
    loopEntryBlocks (runIteration s now ReadResult.ioError).1 = true ∧
    runIteration s now (ReadResult.data []) = (s, none, RunOutcome.loopAgain) :=
  ⟨rfl, rfl, rfl⟩

/-- C10: a tick re-runs `hid.enumerate` only when the cached candidate list
is empty; when the cached list is non-empty the tick never enumerates and
carries the cached descriptors over unchanged. -/
theorem enumerateOnlyWhenEmpty (s : HState) (env : Env) :
    ((bootstrap s env).didEnumerate = true → s.devices = []) ∧
    (s.devices ≠ [] → (bootstrap s env).didEnumerate = false ∧
      (bootstrap s env).state.devices = s.devices) := by
  have hdid : (bootstrap s env).didEnumerate =
      ((invalidateIfStale s env.now).bootstrapDevice.isNone && s.devices.isEmpty) := by
    simp only [bootstrap, wakePhase_didEnumerate, rediscover_didEnum_eq,
      invalidateIfStale_devices]
  constructor
  · intro h
    rw [hdid] at h
    exact isEmpty_true_eq_nil (Bool.and_elim_right h)
  · intro hne
    have hie : s.devices.isEmpty = false := by
      cases hd : s.devices with
      | nil => exact absurd hd hne
      | cons a t => rfl
    refine ⟨?_, ?_⟩
    · rw [hdid, hie, Bool.and_false]
    · simp only [bootstrap, wakePhase_devices]
      rw [rediscover_devices_of_nonempty _ env
          (by rw [invalidateIfStale_devices]; exact hne),
        invalidateIfStale_devices]

/-- Witness for C10: with a non-empty cached candidate list the constructor's
tick does not enumerate and keeps the list. -/
theorem enumerateOnlyWhenEmpty_witness :
    (bootstrap (initState 300 1800 [okDev]) bootEnvOk).didEnumerate = false ∧
    (bootstrap (initState 300 1800 [okDev]) bootEnvOk).state.devices = [okDev] :=
  (enumerateOnlyWhenEmpty (initState 300 1800 [okDev]) bootEnvOk).2 (by decide)

end HyperX
